import Mathlib

/-!
The interop header of zenoh-cpp: pointer reinterpretation between the C structs of
zenoh-c and their C++ wrappers.

A shallow embedding of `include/zenoh/api/interop.hxx`.

* Memory is a map from addresses to bytes.  A pointer is `nullptr` or an address,
  together with its static pointee type; a reference is the address of a live
  object together with its static type.  `const` is a phantom index.
* Every C++ function of the header is an `Interop` computation: a function from
  the memory before the call to either a fault or a result and the memory after.
  The functions that only cast never write, and that is then a theorem about them.
* Template arguments that C++ deduces from the static type of the argument are
  deduced here from the `type` field of the reference.
* What the header takes from outside (sizes and alignments, the class hierarchy,
  the zenoh-c functions `z_move`, `z_internal_null`, `z_internal_check`, the
  loaned/owned type maps) is a parameter, the record `Env`.
-/

namespace zenoh

/-! ## Types -/

/-- Names of the types the header manipulates.  `Owned T` and `Copyable T` are the
instantiations `zenoh::Owned<T>` and `zenoh::Copyable<T>` of the two class
templates of `base.hxx`. -/
inductive TypeName where
  | cstruct (id : Nat)
  | cls (id : Nat)
  | Owned (inner : TypeName)
  | Copyable (inner : TypeName)
  deriving DecidableEq, Repr

/-- Constness of a pointer or reference: `T*` / `T&` against `const T*` / `const T&`. -/
inductive Qual where
  | mut
  | const
  deriving DecidableEq, Repr

/-! ## Memory, pointers, references -/

abbrev Addr := Nat

abbrev Byte := Fin 256

/-- Byte-addressed memory. -/
abbrev Mem := Addr → Byte

/-- A pointer `T*` (or `const T*`): `addr = none` is `nullptr`. -/
structure Ptr (q : Qual) where
  addr : Option Addr
  pointee : TypeName
  deriving DecidableEq, Repr

/-- An lvalue `T&` (or `const T&`): the object at `addr`, seen with static type `type`. -/
structure Ref (q : Qual) where
  addr : Addr
  type : TypeName
  deriving DecidableEq, Repr

/-- The literal `nullptr`, converted to a pointer to `T`. -/
def nullptr {q : Qual} (T : TypeName) : Ptr q := { addr := none, pointee := T }

/-- The expression `&x`. -/
def addressOf {q : Qual} (x : Ref q) : Ptr q := { addr := some x.addr, pointee := x.type }

/-- The expression `reinterpret_cast<U*>(p)`: same address, new static type. -/
def reinterpret_cast {q : Qual} (U : TypeName) (p : Ptr q) : Ptr q :=
  { addr := p.addr, pointee := U }

/-- Implicit conversion of `T&` to `const T&`. -/
def Ref.asConst (x : Ref Qual.mut) : Ref Qual.const := { addr := x.addr, type := x.type }

/-- The `n` bytes of memory starting at `a`: the object representation of an object
of size `n` placed there. -/
def load (m : Mem) (a : Addr) (n : Nat) : List Byte :=
  (List.range n).map (fun i => m (a + i))

/-- Memory after the bytes `bs` are written at `a`. -/
def store (m : Mem) (a : Addr) (bs : List Byte) : Mem :=
  fun x => if h : a ≤ x ∧ x - a < bs.length then bs.get ⟨x - a, h.2⟩ else m x

/-! ## Faults and the computation type -/

/-- The three `static_assert` messages of the header. -/
inductive Assertion where
  | loaned_and_owned_same_layout
  | loaned_and_target_same_layout
  | target_derived_from_owned
  deriving DecidableEq, Repr

/-- Ways a call can fail to produce a result. -/
inductive Fault where
  /-- Template argument deduction or substitution fails, or the argument does not
  convert to the parameter type: the call does not compile. -/
  | substitution_failure
  /-- A `static_assert` of the body fails. -/
  | static_assert_failed (which : Assertion)
  /-- A null pointer is dereferenced. -/
  | null_dereference
  /-- The exception `std::bad_optional_access`. -/
  | bad_optional_access
  deriving DecidableEq, Repr

/-- A call: from the memory before to a fault, or a result and the memory after. -/
def Interop (α : Type) : Type := Mem → Except Fault (α × Mem)

namespace Interop

def ret {α : Type} (a : α) : Interop α := fun m => Except.ok (a, m)

def andThen {α β : Type} (x : Interop α) (f : α → Interop β) : Interop β :=
  fun m =>
    match x m with
    | Except.ok (a, m1) => f a m1
    | Except.error e => Except.error e

def fail {α : Type} (e : Fault) : Interop α := fun _ => Except.error e

/-- Run a call from the memory `m`. -/
def run {α : Type} (x : Interop α) (m : Mem) : Except Fault (α × Mem) := x m

/-- A zenoh-c function: it returns a value and may write memory, and has no fault. -/
def ofC {α : Type} (f : Mem → α × Mem) : Interop α := fun m => Except.ok (f m)

end Interop

instance : Monad Interop where
  pure := Interop.ret
  bind := Interop.andThen

/-- The expression `*p`. -/
def deref {q : Qual} (p : Ptr q) : Interop (Ref q) :=
  match p.addr with
  | some a => pure { addr := a, type := p.pointee }
  | none => Interop.fail Fault.null_dereference

/-- Reading the object `x` designates, `n` bytes of it. -/
def read {q : Qual} (x : Ref q) (n : Nat) : Interop (List Byte) :=
  fun m => Except.ok (load m x.addr n, m)

/-- A `static_assert(cond, msg)` in a template body. -/
def static_assert (cond : Bool) (which : Assertion) : Interop Unit :=
  if cond then pure () else Interop.fail (Fault.static_assert_failed which)

/-! ## What the header takes from outside -/

/-- The declarations the header uses and does not contain: layout of the types, the
class hierarchy of the wrapper classes, the type maps and functions of zenoh-c. -/
structure Env where
  /-- The operator `sizeof(T)`. -/
  sizeof : TypeName → Nat
  /-- The operator `alignof(T)`. -/
  alignof : TypeName → Nat
  /-- All base classes of a class, direct and indirect. -/
  bases : TypeName → List TypeName
  /-- The member typedef `T::InnerType`, when the class declares it. -/
  InnerType : TypeName → Option TypeName
  /-- The type `z_loaned_to_owned_type_t<T>::type`, when declared. -/
  z_loaned_to_owned_type_t : TypeName → Option TypeName
  /-- The pointee of the pointer `z_move` returns for an owned struct type. -/
  z_moved_type : TypeName → TypeName
  /-- The function `::z_move(x)` on an owned struct lvalue. -/
  z_move : Ref Qual.mut → Mem → Ptr Qual.mut × Mem
  /-- The function `::z_internal_null(p)` on a pointer to an owned struct. -/
  z_internal_null : Ptr Qual.mut → Mem → Unit × Mem
  /-- The function `::z_internal_check(x)` on an owned struct lvalue, read through a
  `const&`. -/
  z_internal_check : Ref Qual.const → Mem → Bool

/-- The trait `std::is_base_of_v<B, D>` for class types: `B` is `D` or a base of `D`. -/
def is_base_of (E : Env) (B D : TypeName) : Bool :=
  B == D || (E.bases D).contains B

/-- Deduction of `CopyableType` for a parameter `Copyable<CopyableType>&` from an
argument of static type `A`: `A` is `Copyable<X>` or has such a base. -/
def deduce_copyable (E : Env) (A : TypeName) : Option TypeName :=
  match A with
  | TypeName.Copyable X => some X
  | _ => (E.bases A).findSome? (fun b =>
      match b with
      | TypeName.Copyable X => some X
      | _ => none)

/-- Deduction of `OwnedType` for a parameter `Owned<OwnedType>&` from an argument of
static type `A`. -/
def deduce_owned (E : Env) (A : TypeName) : Option TypeName :=
  match A with
  | TypeName.Owned X => some X
  | _ => (E.bases A).findSome? (fun b =>
      match b with
      | TypeName.Owned X => some X
      | _ => none)

/-- Modelled from the spec: the class template `zenoh::Copyable` and the classes
derived from it are declared in `base.hxx` and the other API headers, which are not
among the sources.  The spec describes the wrappers as type-compatible, bit for bit,
with the C structs, so the `Copyable<CopyableType>` base subobject is at the address
of the object.  Binding an argument to a parameter `Copyable<CopyableType>&` deduces
the template argument and converts the reference to that base subobject. -/
def bind_copyable {q : Qual} (E : Env) (arg : Ref q) : Interop (TypeName × Ref q) :=
  match deduce_copyable E arg.type with
  | some X => pure (X, { addr := arg.addr, type := TypeName.Copyable X })
  | none => Interop.fail Fault.substitution_failure

/-- Modelled from the spec: the class template `zenoh::Owned` and the classes derived
from it are declared in `base.hxx` and the other API headers, which are not among
the sources; as for `Copyable`, the `Owned<OwnedType>` base subobject is at the
address of the object.  Binding an argument to a parameter `Owned<OwnedType>&`
deduces the template argument and converts the reference to that base subobject. -/
def bind_owned {q : Qual} (E : Env) (arg : Ref q) : Interop (TypeName × Ref q) :=
  match deduce_owned E arg.type with
  | some X => pure (X, { addr := arg.addr, type := TypeName.Owned X })
  | none => Interop.fail Fault.substitution_failure

/-! ## Values -/

/-- A value of class or struct type held by value (a local variable, a returned
object): its type and its object representation. -/
structure Obj where
  type : TypeName
  bytes : List Byte
  deriving DecidableEq, Repr

/-- Copy-initialisation `T o = x;` of a trivially copyable struct of `n` bytes. -/
def copy_init {q : Qual} (T : TypeName) (n : Nat) (x : Ref q) : Interop Obj := do
  let bs ← read x n
  return { type := T, bytes := bs }

/-- Materialisation of a temporary: the value `v` is placed in storage at `dst` and
designated by a reference. -/
def materialize (dst : Addr) (v : Obj) : Interop (Ref Qual.const) :=
  fun m => Except.ok ({ addr := dst, type := v.type }, store m dst v.bytes)

/-- Modelled from the spec: the converting constructor `T(const InnerType&)` that a
copyable wrapper class takes from `zenoh::Copyable` (declared in `base.hxx`, which is
not among the sources).  The spec describes the wrapper as a veneer that is
type-compatible, bit for bit, with the C struct: the constructed object has the
bytes of the struct it is built from. -/
def Copyable.construct (E : Env) (T : TypeName) (v : Ref Qual.const) : Interop Obj :=
  copy_init T (E.sizeof v.type) v

/-- The default template argument
`class OwnedType = typename ::z_loaned_to_owned_type_t<LoanedType>::type`:
substitution fails when zenoh-c declares no owned type for `LoanedType`. -/
def default_owned_type (E : Env) (LoanedType : TypeName) : Interop TypeName :=
  match E.z_loaned_to_owned_type_t LoanedType with
  | some O => pure O
  | none => Interop.fail Fault.substitution_failure

/-! ## `std::optional` -/

/-- A reference to a `std::optional<T>` object: where its contained-object storage
and its engaged flag live in memory. -/
structure OptionalRef (q : Qual) where
  storage : Addr
  flag : Addr
  value_type : TypeName
  deriving DecidableEq, Repr

/-- Implicit conversion of `std::optional<T>&` to `const std::optional<T>&`. -/
def OptionalRef.asConst (o : OptionalRef Qual.mut) : OptionalRef Qual.const :=
  { storage := o.storage, flag := o.flag, value_type := o.value_type }

/-- The contained object of the optional, as `value()` designates it. -/
def OptionalRef.contained {q : Qual} (o : OptionalRef q) : Ref q :=
  { addr := o.storage, type := o.value_type }

/-- Whether the optional is engaged in memory `m`. -/
def OptionalRef.engaged {q : Qual} (o : OptionalRef q) (m : Mem) : Bool := m o.flag != 0

/-- The member `has_value()`. -/
def OptionalRef.has_value {q : Qual} (o : OptionalRef q) : Interop Bool :=
  fun m => Except.ok (o.engaged m, m)

/-- The member `value()`: the contained object, or `std::bad_optional_access`. -/
def OptionalRef.value {q : Qual} (o : OptionalRef q) : Interop (Ref q) :=
  fun m =>
    if o.engaged m then Except.ok (o.contained, m)
    else Except.error Fault.bad_optional_access

/-! ## The header: `zenoh::interop` -/

namespace interop

/-- Source lines 43-47: `CopyableType* as_copyable_c_ptr(Copyable<CopyableType>& cpp_obj)`. -/
def as_copyable_c_ptr (E : Env) (arg : Ref Qual.mut) : Interop (Ptr Qual.mut) := do
  let (CopyableType, cpp_obj) ← bind_copyable E arg
  return reinterpret_cast CopyableType (addressOf cpp_obj)

/-- Source lines 49-53:
`const CopyableType* as_copyable_c_ptr(const Copyable<CopyableType>& cpp_obj)`. -/
def as_copyable_c_ptr_const (E : Env) (arg : Ref Qual.const) : Interop (Ptr Qual.const) := do
  let (CopyableType, cpp_obj) ← bind_copyable E arg
  return reinterpret_cast CopyableType (addressOf cpp_obj)

/-- Source lines 55-60: `auto* as_copyable_c_ptr(std::optional<CopyableCppObj>& cpp_obj)`,
with body `cpp_obj.has_value() ? as_copyable_c_ptr(cpp_obj.value()) : nullptr`.  The type of
the conditional is that of its second operand, so the template must instantiate
for the contained type also when the optional is empty. -/
def as_copyable_c_ptr_optional (E : Env) (cpp_obj : OptionalRef Qual.mut) :
    Interop (Ptr Qual.mut) := do
  let (CopyableType, _) ← bind_copyable E cpp_obj.contained
  if (← cpp_obj.has_value) then as_copyable_c_ptr E (← cpp_obj.value)
  else return nullptr CopyableType

/-- Source lines 62-67:
`const auto* as_copyable_c_ptr(const std::optional<CopyableCppObj>& cpp_obj)`. -/
def as_copyable_c_ptr_optional_const (E : Env) (cpp_obj : OptionalRef Qual.const) :
    Interop (Ptr Qual.const) := do
  let (CopyableType, _) ← bind_copyable E cpp_obj.contained
  if (← cpp_obj.has_value) then as_copyable_c_ptr_const E (← cpp_obj.value)
  else return nullptr CopyableType

/-- Source lines 69-73: `OwnedType* as_owned_c_ptr(Owned<OwnedType>& cpp_obj)`. -/
def as_owned_c_ptr (E : Env) (arg : Ref Qual.mut) : Interop (Ptr Qual.mut) := do
  let (OwnedType, cpp_obj) ← bind_owned E arg
  return reinterpret_cast OwnedType (addressOf cpp_obj)

/-- Source lines 75-79: `const OwnedType* as_owned_c_ptr(const Owned<OwnedType>& cpp_obj)`. -/
def as_owned_c_ptr_const (E : Env) (arg : Ref Qual.const) : Interop (Ptr Qual.const) := do
  let (OwnedType, cpp_obj) ← bind_owned E arg
  return reinterpret_cast OwnedType (addressOf cpp_obj)

/-- Source lines 103-107: `auto* as_moved_c_ptr(Owned<OwnedType>& cpp_obj)`, with body
`return ::z_move(*as_owned_c_ptr(cpp_obj));`. -/
def as_moved_c_ptr (E : Env) (arg : Ref Qual.mut) : Interop (Ptr Qual.mut) := do
  let (_, cpp_obj) ← bind_owned E arg
  Interop.ofC (E.z_move (← deref (← as_owned_c_ptr E cpp_obj)))

/-- Source lines 109-114: `auto* as_moved_c_ptr(std::optional<OwnedCppObj>& cpp_obj)`, with
body `cpp_obj.has_value() ? ::z_move(*as_owned_c_ptr(cpp_obj.value())) : nullptr`. -/
def as_moved_c_ptr_optional (E : Env) (cpp_obj : OptionalRef Qual.mut) :
    Interop (Ptr Qual.mut) := do
  let (OwnedType, _) ← bind_owned E cpp_obj.contained
  if (← cpp_obj.has_value) then
    Interop.ofC (E.z_move (← deref (← as_owned_c_ptr E (← cpp_obj.value))))
  else return nullptr (E.z_moved_type OwnedType)

/-- Source lines 116-130: `const auto& as_owned_cpp_ref<T>(const LoanedType* loaned_c_obj)`. -/
def as_owned_cpp_ref_const (E : Env) (T : TypeName) (loaned_c_obj : Ptr Qual.const) :
    Interop (Ref Qual.const) := do
  let LoanedType := loaned_c_obj.pointee
  let OwnedType ← default_owned_type E LoanedType
  static_assert (E.sizeof OwnedType == E.sizeof LoanedType
      && E.alignof OwnedType == E.alignof LoanedType)
    Assertion.loaned_and_owned_same_layout
  static_assert (E.sizeof T == E.sizeof LoanedType && E.alignof T == E.alignof LoanedType)
    Assertion.loaned_and_target_same_layout
  static_assert (is_base_of E (TypeName.Owned OwnedType) T)
    Assertion.target_derived_from_owned
  let o := reinterpret_cast OwnedType loaned_c_obj
  let o_cpp := reinterpret_cast (TypeName.Owned OwnedType) o
  deref (reinterpret_cast T o_cpp)

/-- Source lines 132-146: `auto& as_owned_cpp_ref<T>(LoanedType* loaned_c_obj)`. -/
def as_owned_cpp_ref (E : Env) (T : TypeName) (loaned_c_obj : Ptr Qual.mut) :
    Interop (Ref Qual.mut) := do
  let LoanedType := loaned_c_obj.pointee
  let OwnedType ← default_owned_type E LoanedType
  static_assert (E.sizeof OwnedType == E.sizeof LoanedType
      && E.alignof OwnedType == E.alignof LoanedType)
    Assertion.loaned_and_owned_same_layout
  static_assert (E.sizeof T == E.sizeof LoanedType && E.alignof T == E.alignof LoanedType)
    Assertion.loaned_and_target_same_layout
  static_assert (is_base_of E (TypeName.Owned OwnedType) T)
    Assertion.target_derived_from_owned
  let o := reinterpret_cast OwnedType loaned_c_obj
  let o_cpp := reinterpret_cast (TypeName.Owned OwnedType) o
  deref (reinterpret_cast T o_cpp)

/-- Source lines 179-185: `OwnedType move_to_c_obj(Owned<OwnedType>&& owned_cpp_obj)`. -/
def move_to_c_obj (E : Env) (arg : Ref Qual.mut) : Interop Obj := do
  let (OwnedType, owned_cpp_obj) ← bind_owned E arg
  let o ← copy_init OwnedType (E.sizeof OwnedType)
    (← deref (← as_owned_c_ptr E owned_cpp_obj))
  let _ ← Interop.ofC (E.z_internal_null (← as_owned_c_ptr E owned_cpp_obj))
  return o

namespace detail

/-- Source lines 188-191: `bool check(const Owned<OwnedType>& owned_cpp_obj)`. -/
def check (E : Env) (arg : Ref Qual.const) : Interop Bool := do
  let (_, owned_cpp_obj) ← bind_owned E arg
  let x ← deref (← as_owned_c_ptr_const E owned_cpp_obj)
  Interop.ofC (fun m => (E.z_internal_check x m, m))

/-- Source lines 198-201: `Converter::copyable_to_cpp<T>(const Inner& i)`, with
`Inner = typename T::InnerType`; an argument of another type does not convert;
the body is `return T(i);`. -/
def Converter.copyable_to_cpp (E : Env) (T : TypeName) (arg : Ref Qual.const) : Interop Obj :=
  match E.InnerType T with
  | some Inner =>
    if arg.type = Inner then (do
      let i : Ref Qual.const := arg
      Copyable.construct E T i)
    else Interop.fail Fault.substitution_failure
  | none => Interop.fail Fault.substitution_failure

end detail

/-- Source lines 211-215: `T into_copyable_cpp_obj<T>(const CopyableType& copyable_c_obj)`. -/
def into_copyable_cpp_obj (E : Env) (T : TypeName) (copyable_c_obj : Ref Qual.const) :
    Interop Obj :=
  detail.Converter.copyable_to_cpp E T copyable_c_obj

/-- The expression `*as_copyable_c_ptr(into_copyable_cpp_obj<T>(c))`, read as a C
struct: the returned object is a temporary, materialised at `dst`, and bound to
the `const Copyable<CopyableType>&` parameter. -/
def c_representation_of_copy (E : Env) (T : TypeName) (c : Ref Qual.const) (dst : Addr) :
    Interop Obj := do
  let tmp ← materialize dst (← into_copyable_cpp_obj E T c)
  let p ← as_copyable_c_ptr_const E tmp
  copy_init p.pointee (E.sizeof p.pointee) (← deref p)

end interop

/-! ## A concrete environment

Two zenoh-c families and their wrappers, used to evaluate the header on concrete
inputs: an owned struct of four bytes with its loaned and moved views and the
class wrapping it, and a copyable struct of two bytes with the class wrapping it. -/

namespace sample

def z_owned_t : TypeName := TypeName.cstruct 0
def z_loaned_t : TypeName := TypeName.cstruct 1
def z_moved_t : TypeName := TypeName.cstruct 2
def z_copyable_t : TypeName := TypeName.cstruct 3
def OwnedClass : TypeName := TypeName.cls 0
def CopyableClass : TypeName := TypeName.cls 1

def sizeof : TypeName → Nat
  | TypeName.cstruct 3 => 2
  | TypeName.Copyable _ => 2
  | TypeName.cls 1 => 2
  | _ => 4

def env : Env where
  sizeof := sizeof
  alignof := fun _ => 2
  bases := fun T =>
    if T = OwnedClass then [TypeName.Owned z_owned_t]
    else if T = CopyableClass then [TypeName.Copyable z_copyable_t]
    else []
  InnerType := fun T =>
    if T = CopyableClass ∨ T = TypeName.Copyable z_copyable_t then some z_copyable_t else none
  z_loaned_to_owned_type_t := fun T => if T = z_loaned_t then some z_owned_t else none
  z_moved_type := fun _ => z_moved_t
  z_move := fun x m => ({ addr := some x.addr, pointee := z_moved_t }, m)
  z_internal_null := fun p m =>
    match p.addr with
    | some a => ((), store m a (List.replicate (sizeof p.pointee) 0))
    | none => ((), m)
  z_internal_check := fun x m => (load m x.addr (sizeof x.type)).any (fun b => b != 0)

/-- Memory holding the byte `a % 256` at every address `a`. -/
def mem : Mem := fun a => Fin.ofNat a

end sample

/-! ## Running a call -/

namespace Interop

@[simp] theorem run_pure {α : Type} (a : α) (m : Mem) :
    (pure a : Interop α).run m = Except.ok (a, m) := rfl

@[simp] theorem run_fail {α : Type} (e : Fault) (m : Mem) :
    (Interop.fail e : Interop α).run m = Except.error e := rfl

@[simp] theorem run_ofC {α : Type} (f : Mem → α × Mem) (m : Mem) :
    (Interop.ofC f).run m = Except.ok (f m) := rfl

theorem run_bind {α β : Type} (x : Interop α) (f : α → Interop β) (m : Mem) :
    (x >>= f).run m =
      match x.run m with
      | Except.ok (a, m1) => (f a).run m1
      | Except.error e => Except.error e := rfl

@[simp] theorem run_bind_ok {α β : Type} (x : Interop α) (f : α → Interop β) (m m1 : Mem)
    (a : α) (h : x.run m = Except.ok (a, m1)) : (x >>= f).run m = (f a).run m1 := by
  rw [run_bind, h]

@[simp] theorem run_bind_error {α β : Type} (x : Interop α) (f : α → Interop β) (m : Mem)
    (e : Fault) (h : x.run m = Except.error e) : (x >>= f).run m = Except.error e := by
  rw [run_bind, h]

end Interop

theorem run_bind_copyable {q : Qual} (E : Env) (x : Ref q) (X : TypeName) (m : Mem)
    (h : deduce_copyable E x.type = some X) :
    (bind_copyable E x).run m =
      Except.ok ((X, { addr := x.addr, type := TypeName.Copyable X }), m) := by
  simp [bind_copyable, h]

theorem run_bind_owned {q : Qual} (E : Env) (x : Ref q) (X : TypeName) (m : Mem)
    (h : deduce_owned E x.type = some X) :
    (bind_owned E x).run m =
      Except.ok ((X, { addr := x.addr, type := TypeName.Owned X }), m) := by
  simp [bind_owned, h]

namespace interop

theorem run_as_copyable_c_ptr (E : Env) (x : Ref Qual.mut) (X : TypeName) (m : Mem)
    (h : deduce_copyable E x.type = some X) :
    (as_copyable_c_ptr E x).run m = Except.ok ({ addr := some x.addr, pointee := X }, m) := by
  unfold as_copyable_c_ptr
  rw [Interop.run_bind_ok _ _ _ _ _ (run_bind_copyable E x X m h)]
  rfl

theorem run_as_copyable_c_ptr_const (E : Env) (x : Ref Qual.const) (X : TypeName) (m : Mem)
    (h : deduce_copyable E x.type = some X) :
    (as_copyable_c_ptr_const E x).run m =
      Except.ok ({ addr := some x.addr, pointee := X }, m) := by
  unfold as_copyable_c_ptr_const
  rw [Interop.run_bind_ok _ _ _ _ _ (run_bind_copyable E x X m h)]
  rfl

theorem run_as_owned_c_ptr (E : Env) (x : Ref Qual.mut) (X : TypeName) (m : Mem)
    (h : deduce_owned E x.type = some X) :
    (as_owned_c_ptr E x).run m = Except.ok ({ addr := some x.addr, pointee := X }, m) := by
  unfold as_owned_c_ptr
  rw [Interop.run_bind_ok _ _ _ _ _ (run_bind_owned E x X m h)]
  rfl

theorem run_as_owned_c_ptr_const (E : Env) (x : Ref Qual.const) (X : TypeName) (m : Mem)
    (h : deduce_owned E x.type = some X) :
    (as_owned_c_ptr_const E x).run m = Except.ok ({ addr := some x.addr, pointee := X }, m) := by
  unfold as_owned_c_ptr_const
  rw [Interop.run_bind_ok _ _ _ _ _ (run_bind_owned E x X m h)]
  rfl

theorem run_static_assert_true (w : Assertion) (m : Mem) :
    (static_assert true w).run m = Except.ok ((), m) := rfl

theorem load_length (m : Mem) (a : Addr) (n : Nat) : (load m a n).length = n := by
  simp [load]

theorem load_store_disjoint (m : Mem) (a b : Nat) (bs : List Byte) (n : Nat)
    (h : a + bs.length ≤ b ∨ b + n ≤ a) : load (store m a bs) b n = load m b n := by
  unfold load
  apply List.map_congr_left
  intro (i : Nat) hi
  have hi2 : i < n := List.mem_range.mp hi
  have hne : ¬ (a ≤ b + i ∧ b + i - a < bs.length) := by
    rintro ⟨hc1, hc2⟩
    rcases h with h | h
    · have h3 : bs.length + a ≤ b + i := by omega
      exact absurd hc2 (Nat.not_lt.mpr (Nat.le_sub_of_add_le h3))
    · have h4 : b + i < a := by omega
      exact absurd hc1 (Nat.not_le.mpr h4)
  simp [store, hne]

theorem load_store_same (m : Mem) (a : Addr) (bs : List Byte) :
    load (store m a bs) a bs.length = bs := by
  apply List.ext_getElem
  · simp [load]
  · intro i h1 h2
    simp [load, store, h2]

theorem run_as_owned_cpp_ref (E : Env) (T : TypeName) (p : Ptr Qual.mut) (m : Mem) :
    (as_owned_cpp_ref E T p).run m =
      match E.z_loaned_to_owned_type_t p.pointee with
      | none => Except.error Fault.substitution_failure
      | some O =>
        if (E.sizeof O == E.sizeof p.pointee && E.alignof O == E.alignof p.pointee) = false then
          Except.error (Fault.static_assert_failed Assertion.loaned_and_owned_same_layout)
        else if (E.sizeof T == E.sizeof p.pointee && E.alignof T == E.alignof p.pointee)
            = false then
          Except.error (Fault.static_assert_failed Assertion.loaned_and_target_same_layout)
        else if is_base_of E (TypeName.Owned O) T = false then
          Except.error (Fault.static_assert_failed Assertion.target_derived_from_owned)
        else match p.addr with
          | some a => Except.ok ({ addr := a, type := T }, m)
          | none => Except.error Fault.null_dereference := by
  unfold as_owned_cpp_ref
  simp only []
  cases hO : E.z_loaned_to_owned_type_t p.pointee with
  | none =>
    have h0 : (default_owned_type E p.pointee).run m
        = Except.error Fault.substitution_failure := by
      simp [default_owned_type, hO]
    rw [Interop.run_bind_error _ _ _ _ h0]
  | some O =>
    have h0 : (default_owned_type E p.pointee).run m = Except.ok (O, m) := by
      simp [default_owned_type, hO]
    rw [Interop.run_bind_ok _ _ _ _ _ h0]
    simp only []
    cases h1 : (E.sizeof O == E.sizeof p.pointee && E.alignof O == E.alignof p.pointee) with
    | false => rfl
    | true =>
      rw [Interop.run_bind_ok _ _ _ _ _ (run_static_assert_true _ m)]
      cases h2 : (E.sizeof T == E.sizeof p.pointee && E.alignof T == E.alignof p.pointee) with
      | false => rfl
      | true =>
        rw [Interop.run_bind_ok _ _ _ _ _ (run_static_assert_true _ m)]
        cases h3 : is_base_of E (TypeName.Owned O) T with
        | false => rfl
        | true =>
          rw [Interop.run_bind_ok _ _ _ _ _ (run_static_assert_true _ m)]
          cases hp : p.addr <;> simp [deref, reinterpret_cast, hp]

theorem run_as_owned_cpp_ref_ok_iff (E : Env) (T L : TypeName) (a : Addr) (m : Mem)
    (r : Ref Qual.mut × Mem) :
    (as_owned_cpp_ref E T { addr := some a, pointee := L }).run m = Except.ok r
      ↔ r = ({ addr := a, type := T }, m)
        ∧ ∃ O, E.z_loaned_to_owned_type_t L = some O
          ∧ (E.sizeof O = E.sizeof L ∧ E.alignof O = E.alignof L)
          ∧ (E.sizeof T = E.sizeof L ∧ E.alignof T = E.alignof L)
          ∧ is_base_of E (TypeName.Owned O) T = true := by
  rw [run_as_owned_cpp_ref]
  simp only []
  cases hO : E.z_loaned_to_owned_type_t L with
  | none => simp
  | some O =>
    simp only []
    cases h1 : (E.sizeof O == E.sizeof L && E.alignof O == E.alignof L) with
    | false =>
      have h1b : ¬ (E.sizeof O = E.sizeof L ∧ E.alignof O = E.alignof L) := by
        intro hc
        simp [hc.1, hc.2] at h1
      simp [h1b]
    | true =>
      have h1b : E.sizeof O = E.sizeof L ∧ E.alignof O = E.alignof L := by
        simpa using h1
      cases h2 : (E.sizeof T == E.sizeof L && E.alignof T == E.alignof L) with
      | false =>
        have h2b : ¬ (E.sizeof T = E.sizeof L ∧ E.alignof T = E.alignof L) := by
          intro hc
          simp [hc.1, hc.2] at h2
        simp [h2b]
      | true =>
        have h2b : E.sizeof T = E.sizeof L ∧ E.alignof T = E.alignof L := by
          simpa using h2
        cases h3 : is_base_of E (TypeName.Owned O) T with
        | false => simp [h3]
        | true =>
          simp [h1b, h2b, h3]
          exact eq_comm

theorem run_as_owned_cpp_ref_error (E : Env) (T L : TypeName) (a : Addr) (m : Mem) (e : Fault)
    (h : (as_owned_cpp_ref E T { addr := some a, pointee := L }).run m = Except.error e) :
    e = Fault.substitution_failure ∨ ∃ w, e = Fault.static_assert_failed w := by
  rw [run_as_owned_cpp_ref] at h
  simp only [] at h
  cases hO : E.z_loaned_to_owned_type_t L with
  | none =>
    rw [hO] at h
    simp only [Except.error.injEq] at h
    exact Or.inl h.symm
  | some O =>
    rw [hO] at h
    simp only [] at h
    split_ifs at h <;> simp only [Except.error.injEq] at h
    · exact Or.inr ⟨_, h.symm⟩
    · exact Or.inr ⟨_, h.symm⟩
    · exact Or.inr ⟨_, h.symm⟩

theorem run_as_owned_cpp_ref_const (E : Env) (T : TypeName) (p : Ptr Qual.const) (m : Mem) :
    (as_owned_cpp_ref_const E T p).run m =
      match E.z_loaned_to_owned_type_t p.pointee with
      | none => Except.error Fault.substitution_failure
      | some O =>
        if (E.sizeof O == E.sizeof p.pointee && E.alignof O == E.alignof p.pointee) = false then
          Except.error (Fault.static_assert_failed Assertion.loaned_and_owned_same_layout)
        else if (E.sizeof T == E.sizeof p.pointee && E.alignof T == E.alignof p.pointee)
            = false then
          Except.error (Fault.static_assert_failed Assertion.loaned_and_target_same_layout)
        else if is_base_of E (TypeName.Owned O) T = false then
          Except.error (Fault.static_assert_failed Assertion.target_derived_from_owned)
        else match p.addr with
          | some a => Except.ok ({ addr := a, type := T }, m)
          | none => Except.error Fault.null_dereference := by
  unfold as_owned_cpp_ref_const
  simp only []
  cases hO : E.z_loaned_to_owned_type_t p.pointee with
  | none =>
    have h0 : (default_owned_type E p.pointee).run m
        = Except.error Fault.substitution_failure := by
      simp [default_owned_type, hO]
    rw [Interop.run_bind_error _ _ _ _ h0]
  | some O =>
    have h0 : (default_owned_type E p.pointee).run m = Except.ok (O, m) := by
      simp [default_owned_type, hO]
    rw [Interop.run_bind_ok _ _ _ _ _ h0]
    simp only []
    cases h1 : (E.sizeof O == E.sizeof p.pointee && E.alignof O == E.alignof p.pointee) with
    | false => rfl
    | true =>
      rw [Interop.run_bind_ok _ _ _ _ _ (run_static_assert_true _ m)]
      cases h2 : (E.sizeof T == E.sizeof p.pointee && E.alignof T == E.alignof p.pointee) with
      | false => rfl
      | true =>
        rw [Interop.run_bind_ok _ _ _ _ _ (run_static_assert_true _ m)]
        cases h3 : is_base_of E (TypeName.Owned O) T with
        | false => rfl
        | true =>
          rw [Interop.run_bind_ok _ _ _ _ _ (run_static_assert_true _ m)]
          cases hp : p.addr <;> simp [deref, reinterpret_cast, hp]

theorem run_as_owned_cpp_ref_const_ok_iff (E : Env) (T L : TypeName) (a : Addr) (m : Mem)
    (r : Ref Qual.const × Mem) :
    (as_owned_cpp_ref_const E T { addr := some a, pointee := L }).run m = Except.ok r
      ↔ r = ({ addr := a, type := T }, m)
        ∧ ∃ O, E.z_loaned_to_owned_type_t L = some O
          ∧ (E.sizeof O = E.sizeof L ∧ E.alignof O = E.alignof L)
          ∧ (E.sizeof T = E.sizeof L ∧ E.alignof T = E.alignof L)
          ∧ is_base_of E (TypeName.Owned O) T = true := by
  rw [run_as_owned_cpp_ref_const]
  simp only []
  cases hO : E.z_loaned_to_owned_type_t L with
  | none => simp
  | some O =>
    simp only []
    cases h1 : (E.sizeof O == E.sizeof L && E.alignof O == E.alignof L) with
    | false =>
      have h1b : ¬ (E.sizeof O = E.sizeof L ∧ E.alignof O = E.alignof L) := by
        intro hc
        simp [hc.1, hc.2] at h1
      simp [h1b]
    | true =>
      have h1b : E.sizeof O = E.sizeof L ∧ E.alignof O = E.alignof L := by
        simpa using h1
      cases h2 : (E.sizeof T == E.sizeof L && E.alignof T == E.alignof L) with
      | false =>
        have h2b : ¬ (E.sizeof T = E.sizeof L ∧ E.alignof T = E.alignof L) := by
          intro hc
          simp [hc.1, hc.2] at h2
        simp [h2b]
      | true =>
        have h2b : E.sizeof T = E.sizeof L ∧ E.alignof T = E.alignof L := by
          simpa using h2
        cases h3 : is_base_of E (TypeName.Owned O) T with
        | false => simp [h3]
        | true =>
          simp [h1b, h2b, h3]
          exact eq_comm

theorem run_as_owned_cpp_ref_const_error (E : Env) (T L : TypeName) (a : Addr) (m : Mem) (e : Fault)
    (h : (as_owned_cpp_ref_const E T { addr := some a, pointee := L }).run m = Except.error e) :
    e = Fault.substitution_failure ∨ ∃ w, e = Fault.static_assert_failed w := by
  rw [run_as_owned_cpp_ref_const] at h
  simp only [] at h
  cases hO : E.z_loaned_to_owned_type_t L with
  | none =>
    rw [hO] at h
    simp only [Except.error.injEq] at h
    exact Or.inl h.symm
  | some O =>
    rw [hO] at h
    simp only [] at h
    split_ifs at h <;> simp only [Except.error.injEq] at h
    · exact Or.inr ⟨_, h.symm⟩
    · exact Or.inr ⟨_, h.symm⟩
    · exact Or.inr ⟨_, h.symm⟩

theorem sample.null_then_check (a : Addr) (T : TypeName) (s : Mem) :
    sample.env.z_internal_check { addr := a, type := T }
      (sample.env.z_internal_null { addr := some a, pointee := T } s).2 = false := by
  show (load (store s a (List.replicate (sample.sizeof T) 0)) a (sample.sizeof T)).any
    (fun b => b != 0) = false
  have h := load_store_same s a (List.replicate (sample.sizeof T) 0)
  rw [List.length_replicate] at h
  rw [h]
  simp

/-! ## The header on the sample environment -/

theorem sample.as_owned_cpp_ref_accepts :
    (interop.as_owned_cpp_ref sample.env sample.OwnedClass
        { addr := some 16, pointee := sample.z_loaned_t }).run sample.mem
      = Except.ok ({ addr := 16, type := sample.OwnedClass }, sample.mem) := rfl

theorem sample.as_owned_cpp_ref_rejects_other_layout :
    (interop.as_owned_cpp_ref sample.env sample.CopyableClass
        { addr := some 16, pointee := sample.z_loaned_t }).run sample.mem
      = Except.error
          (Fault.static_assert_failed Assertion.loaned_and_target_same_layout) := rfl

theorem sample.as_owned_cpp_ref_rejects_unrelated_class :
    (interop.as_owned_cpp_ref sample.env (TypeName.cls 7)
        { addr := some 16, pointee := sample.z_loaned_t }).run sample.mem
      = Except.error (Fault.static_assert_failed Assertion.target_derived_from_owned) := rfl

theorem sample.as_owned_cpp_ref_null :
    (interop.as_owned_cpp_ref sample.env sample.OwnedClass
        (nullptr sample.z_loaned_t)).run sample.mem
      = Except.error Fault.null_dereference := rfl

theorem sample.as_copyable_c_ptr_optional_empty :
    (interop.as_copyable_c_ptr_optional sample.env
        { storage := 32, flag := 256, value_type := sample.CopyableClass }).run sample.mem
      = Except.ok (nullptr sample.z_copyable_t, sample.mem) := rfl

theorem sample.move_to_c_obj_returns_old_bytes :
    ((interop.move_to_c_obj sample.env { addr := 16, type := sample.OwnedClass }).run
        sample.mem).toOption.map (fun r => (r.1, load r.2 16 4))
      = some ({ type := sample.z_owned_t, bytes := [16, 17, 18, 19] }, [0, 0, 0, 0]) := by
  decide

/-! ## The claims -/

/-- C4: `as_owned_c_ptr` and `as_copyable_c_ptr` are pure pointer reinterpretations.
For every owned object `x` (its static type is, or derives from, `Owned<X>`) and
every copyable object `y` (likewise for `Copyable<Y>`), from any memory `m`: each
overload returns a pointer whose address is the address of the object and whose
static pointee type is the C struct type; the const and the non-const overload
return the same address; and the memory after the call is `m`, so no byte of the
object (nor any other byte) is modified. -/
theorem as_c_ptr_pure_reinterpretation (E : Env) (x y : Ref Qual.mut) (X Y : TypeName)
    (m : Mem) (hx : deduce_owned E x.type = some X)
    (hy : deduce_copyable E y.type = some Y) :
    (as_owned_c_ptr E x).run m = Except.ok ({ addr := some x.addr, pointee := X }, m)
    ∧ (as_owned_c_ptr_const E x.asConst).run m
        = Except.ok ({ addr := some x.addr, pointee := X }, m)
    ∧ (as_copyable_c_ptr E y).run m = Except.ok ({ addr := some y.addr, pointee := Y }, m)
    ∧ (as_copyable_c_ptr_const E y.asConst).run m
        = Except.ok ({ addr := some y.addr, pointee := Y }, m) :=
  ⟨run_as_owned_c_ptr E x X m hx, run_as_owned_c_ptr_const E x.asConst X m hx,
    run_as_copyable_c_ptr E y Y m hy, run_as_copyable_c_ptr_const E y.asConst Y m hy⟩

/-- Witness for C4: the owned wrapper object at address 16 and the copyable wrapper
object at address 32 of the sample environment. -/
theorem as_c_ptr_pure_reinterpretation_witness :
    (deduce_owned sample.env sample.OwnedClass = some sample.z_owned_t
      ∧ deduce_copyable sample.env sample.CopyableClass = some sample.z_copyable_t)
    ∧ ((as_owned_c_ptr sample.env { addr := 16, type := sample.OwnedClass }).run sample.mem
          = Except.ok ({ addr := some 16, pointee := sample.z_owned_t }, sample.mem)
      ∧ (as_owned_c_ptr_const sample.env { addr := 16, type := sample.OwnedClass }).run
            sample.mem
          = Except.ok ({ addr := some 16, pointee := sample.z_owned_t }, sample.mem)
      ∧ (as_copyable_c_ptr sample.env { addr := 32, type := sample.CopyableClass }).run
            sample.mem
          = Except.ok ({ addr := some 32, pointee := sample.z_copyable_t }, sample.mem)
      ∧ (as_copyable_c_ptr_const sample.env { addr := 32, type := sample.CopyableClass }).run
            sample.mem
          = Except.ok ({ addr := some 32, pointee := sample.z_copyable_t }, sample.mem)) :=
  ⟨⟨by decide, by decide⟩,
    as_c_ptr_pure_reinterpretation sample.env { addr := 16, type := sample.OwnedClass }
      { addr := 32, type := sample.CopyableClass } sample.z_owned_t sample.z_copyable_t
      sample.mem (by decide) (by decide)⟩

/-- C1: for the optional `o` of a copyable object (the contained type is, or derives
from, `Copyable<X>`), from any memory `m`, both overloads of `as_copyable_c_ptr`
return a pointer and leave the memory `m`, hence the optional, unchanged; the
pointer is null if and only if the optional is empty; and when the optional is
engaged the pointer is the one `as_copyable_c_ptr` returns for the contained
object, namely the address of that object with pointee type the C struct. -/
theorem as_copyable_c_ptr_optional_null_iff_empty (E : Env) (o : OptionalRef Qual.mut)
    (X : TypeName) (m : Mem) (h : deduce_copyable E o.value_type = some X) :
    ∃ (p : Ptr Qual.mut) (pc : Ptr Qual.const),
      (as_copyable_c_ptr_optional E o).run m = Except.ok (p, m)
      ∧ (as_copyable_c_ptr_optional_const E o.asConst).run m = Except.ok (pc, m)
      ∧ (p.addr = none ↔ o.engaged m = false)
      ∧ (pc.addr = none ↔ o.engaged m = false)
      ∧ (o.engaged m = true →
          (as_copyable_c_ptr E o.contained).run m = Except.ok (p, m)
          ∧ (as_copyable_c_ptr_const E o.asConst.contained).run m = Except.ok (pc, m)
          ∧ p = { addr := some o.storage, pointee := X }
          ∧ pc = { addr := some o.storage, pointee := X }) := by
  have hb : (bind_copyable E o.contained).run m
      = Except.ok ((X, { addr := o.storage, type := TypeName.Copyable X }), m) :=
    run_bind_copyable E o.contained X m h
  have hbc : (bind_copyable E o.asConst.contained).run m
      = Except.ok ((X, { addr := o.storage, type := TypeName.Copyable X }), m) :=
    run_bind_copyable E o.asConst.contained X m h
  have hv : (as_copyable_c_ptr E o.contained).run m
      = Except.ok ({ addr := some o.storage, pointee := X }, m) :=
    run_as_copyable_c_ptr E o.contained X m h
  have hvc : (as_copyable_c_ptr_const E o.asConst.contained).run m
      = Except.ok ({ addr := some o.storage, pointee := X }, m) :=
    run_as_copyable_c_ptr_const E o.asConst.contained X m h
  cases he : o.engaged m with
  | false =>
    have hec : o.asConst.engaged m = false := he
    refine ⟨nullptr X, nullptr X, ?_, ?_, ?_, ?_, ?_⟩
    · unfold as_copyable_c_ptr_optional
      rw [Interop.run_bind_ok _ _ _ _ _ hb]
      have hh : (o.has_value).run m = Except.ok (false, m) := by
        simp [OptionalRef.has_value, Interop.run, he]
      simp only []
      rw [Interop.run_bind_ok _ _ _ _ _ hh]
      rfl
    · unfold as_copyable_c_ptr_optional_const
      rw [Interop.run_bind_ok _ _ _ _ _ hbc]
      have hh : (o.asConst.has_value).run m = Except.ok (false, m) := by
        simp [OptionalRef.has_value, Interop.run, hec]
      simp only []
      rw [Interop.run_bind_ok _ _ _ _ _ hh]
      rfl
    · simp [nullptr]
    · simp [nullptr]
    · intro hc; cases hc
  | true =>
    have hec : o.asConst.engaged m = true := he
    refine ⟨{ addr := some o.storage, pointee := X }, { addr := some o.storage, pointee := X },
      ?_, ?_, ?_, ?_, ?_⟩
    · unfold as_copyable_c_ptr_optional
      rw [Interop.run_bind_ok _ _ _ _ _ hb]
      have hh : (o.has_value).run m = Except.ok (true, m) := by
        simp [OptionalRef.has_value, Interop.run, he]
      have hval : (o.value).run m = Except.ok (o.contained, m) := by
        simp [OptionalRef.value, Interop.run, he]
      simp only []
      rw [Interop.run_bind_ok _ _ _ _ _ hh]
      simp only [if_true]
      rw [Interop.run_bind_ok _ _ _ _ _ hval]
      exact hv
    · unfold as_copyable_c_ptr_optional_const
      rw [Interop.run_bind_ok _ _ _ _ _ hbc]
      have hh : (o.asConst.has_value).run m = Except.ok (true, m) := by
        simp [OptionalRef.has_value, Interop.run, hec]
      have hval : (o.asConst.value).run m = Except.ok (o.asConst.contained, m) := by
        simp [OptionalRef.value, Interop.run, hec]
      simp only []
      rw [Interop.run_bind_ok _ _ _ _ _ hh]
      simp only [if_true]
      rw [Interop.run_bind_ok _ _ _ _ _ hval]
      exact hvc
    · simp
    · simp
    · intro _
      exact ⟨hv, hvc, rfl, rfl⟩

/-- Witness for C1: the engaged optional of the sample copyable class whose storage is
at address 32 and whose flag is at address 34. -/
theorem as_copyable_c_ptr_optional_null_iff_empty_witness :
    deduce_copyable sample.env sample.CopyableClass = some sample.z_copyable_t
    ∧ ∃ (p : Ptr Qual.mut) (pc : Ptr Qual.const),
      (as_copyable_c_ptr_optional sample.env
          { storage := 32, flag := 34, value_type := sample.CopyableClass }).run sample.mem
        = Except.ok (p, sample.mem)
      ∧ (as_copyable_c_ptr_optional_const sample.env
          (OptionalRef.asConst
            { storage := 32, flag := 34, value_type := sample.CopyableClass })).run sample.mem
        = Except.ok (pc, sample.mem)
      ∧ (p.addr = none ↔ OptionalRef.engaged
          ({ storage := 32, flag := 34, value_type := sample.CopyableClass } :
            OptionalRef Qual.mut) sample.mem = false)
      ∧ (pc.addr = none ↔ OptionalRef.engaged
          ({ storage := 32, flag := 34, value_type := sample.CopyableClass } :
            OptionalRef Qual.mut) sample.mem = false)
      ∧ (OptionalRef.engaged
          ({ storage := 32, flag := 34, value_type := sample.CopyableClass } :
            OptionalRef Qual.mut) sample.mem = true →
          (as_copyable_c_ptr sample.env
              (OptionalRef.contained
                { storage := 32, flag := 34, value_type := sample.CopyableClass })).run
              sample.mem = Except.ok (p, sample.mem)
          ∧ (as_copyable_c_ptr_const sample.env
              (OptionalRef.contained (OptionalRef.asConst
                { storage := 32, flag := 34, value_type := sample.CopyableClass }))).run
              sample.mem = Except.ok (pc, sample.mem)
          ∧ p = { addr := some 32, pointee := sample.z_copyable_t }
          ∧ pc = { addr := some 32, pointee := sample.z_copyable_t }) :=
  ⟨by decide,
    as_copyable_c_ptr_optional_null_iff_empty sample.env
      { storage := 32, flag := 34, value_type := sample.CopyableClass }
      sample.z_copyable_t sample.mem (by decide)⟩

/-- C2: for the optional `o` of an owned object (the contained type is, or derives
from, `Owned<X>`), from any memory `m`: when the optional is empty
`as_moved_c_ptr` returns the null pointer and leaves `m` unchanged; when it is
engaged the call does what `as_moved_c_ptr` does on the contained object, which is
`z_move` applied to the owned C struct at the address of that object.  The call
adds no write of its own: with a `z_move` that writes nothing, as the cast of
zenoh-c, the memory after the call is `m`, so the optional is not reset and the
value it holds is not changed. -/
theorem as_moved_c_ptr_optional_spec (E : Env) (o : OptionalRef Qual.mut) (X : TypeName)
    (m : Mem) (h : deduce_owned E o.value_type = some X)
    (hmove : ∀ (x : Ref Qual.mut) (s : Mem), (E.z_move x s).2 = s) :
    (o.engaged m = false →
      (as_moved_c_ptr_optional E o).run m = Except.ok (nullptr (E.z_moved_type X), m))
    ∧ (o.engaged m = true →
      (as_moved_c_ptr_optional E o).run m = (as_moved_c_ptr E o.contained).run m)
    ∧ (as_moved_c_ptr E o.contained).run m
        = Except.ok (E.z_move { addr := o.storage, type := X } m)
    ∧ ∃ p : Ptr Qual.mut, (as_moved_c_ptr_optional E o).run m = Except.ok (p, m) := by
  have hb : (bind_owned E o.contained).run m
      = Except.ok ((X, { addr := o.storage, type := TypeName.Owned X }), m) :=
    run_bind_owned E o.contained X m h
  have hp : (as_owned_c_ptr E o.contained).run m
      = Except.ok ({ addr := some o.storage, pointee := X }, m) :=
    run_as_owned_c_ptr E o.contained X m h
  have hp2 : (as_owned_c_ptr E { addr := o.storage, type := TypeName.Owned X }).run m
      = Except.ok ({ addr := some o.storage, pointee := X }, m) :=
    run_as_owned_c_ptr E { addr := o.storage, type := TypeName.Owned X } X m rfl
  have hd : (deref ({ addr := some o.storage, pointee := X } : Ptr Qual.mut)).run m
      = Except.ok ({ addr := o.storage, type := X }, m) := rfl
  have hplain : (as_moved_c_ptr E o.contained).run m
      = Except.ok (E.z_move { addr := o.storage, type := X } m) := by
    unfold as_moved_c_ptr
    rw [Interop.run_bind_ok _ _ _ _ _ hb]
    simp only []
    rw [Interop.run_bind_ok _ _ _ _ _ hp2, Interop.run_bind_ok _ _ _ _ _ hd]
    rfl
  have hengaged : o.engaged m = true →
      (as_moved_c_ptr_optional E o).run m
        = Except.ok (E.z_move { addr := o.storage, type := X } m) := by
    intro he
    unfold as_moved_c_ptr_optional
    rw [Interop.run_bind_ok _ _ _ _ _ hb]
    have hh : (o.has_value).run m = Except.ok (true, m) := by
      simp [OptionalRef.has_value, Interop.run, he]
    have hval : (o.value).run m = Except.ok (o.contained, m) := by
      simp [OptionalRef.value, Interop.run, he]
    simp only []
    rw [Interop.run_bind_ok _ _ _ _ _ hh]
    simp only [if_true]
    rw [Interop.run_bind_ok _ _ _ _ _ hval, Interop.run_bind_ok _ _ _ _ _ hp,
      Interop.run_bind_ok _ _ _ _ _ hd]
    rfl
  have hempty : o.engaged m = false →
      (as_moved_c_ptr_optional E o).run m = Except.ok (nullptr (E.z_moved_type X), m) := by
    intro he
    unfold as_moved_c_ptr_optional
    rw [Interop.run_bind_ok _ _ _ _ _ hb]
    have hh : (o.has_value).run m = Except.ok (false, m) := by
      simp [OptionalRef.has_value, Interop.run, he]
    simp only []
    rw [Interop.run_bind_ok _ _ _ _ _ hh]
    rfl
  refine ⟨hempty, ?_, hplain, ?_⟩
  · intro he
    rw [hengaged he, hplain]
  · cases he : o.engaged m with
    | false => exact ⟨_, hempty he⟩
    | true =>
      refine ⟨(E.z_move { addr := o.storage, type := X } m).1, ?_⟩
      rw [hengaged he]
      have h2 := hmove { addr := o.storage, type := X } m
      exact congrArg Except.ok (Prod.ext rfl h2)

/-- Witness for C2: the engaged optional of the sample owned class whose storage is at
address 16 and whose flag is at address 20; the sample `z_move` is the cast. -/
theorem as_moved_c_ptr_optional_spec_witness :
    (deduce_owned sample.env sample.OwnedClass = some sample.z_owned_t
      ∧ ∀ (x : Ref Qual.mut) (s : Mem), (sample.env.z_move x s).2 = s)
    ∧ ((OptionalRef.engaged
          ({ storage := 16, flag := 20, value_type := sample.OwnedClass } :
            OptionalRef Qual.mut) sample.mem = false →
        (as_moved_c_ptr_optional sample.env
            { storage := 16, flag := 20, value_type := sample.OwnedClass }).run sample.mem
          = Except.ok (nullptr (sample.env.z_moved_type sample.z_owned_t), sample.mem))
      ∧ (OptionalRef.engaged
          ({ storage := 16, flag := 20, value_type := sample.OwnedClass } :
            OptionalRef Qual.mut) sample.mem = true →
        (as_moved_c_ptr_optional sample.env
            { storage := 16, flag := 20, value_type := sample.OwnedClass }).run sample.mem
          = (as_moved_c_ptr sample.env
              (OptionalRef.contained
                { storage := 16, flag := 20, value_type := sample.OwnedClass })).run
              sample.mem)
      ∧ (as_moved_c_ptr sample.env
            (OptionalRef.contained
              { storage := 16, flag := 20, value_type := sample.OwnedClass })).run sample.mem
          = Except.ok (sample.env.z_move { addr := 16, type := sample.z_owned_t } sample.mem)
      ∧ ∃ p : Ptr Qual.mut,
          (as_moved_c_ptr_optional sample.env
            { storage := 16, flag := 20, value_type := sample.OwnedClass }).run sample.mem
          = Except.ok (p, sample.mem)) :=
  ⟨⟨by decide, fun _ _ => rfl⟩,
    as_moved_c_ptr_optional_spec sample.env
      { storage := 16, flag := 20, value_type := sample.OwnedClass } sample.z_owned_t
      sample.mem (by decide) (fun _ _ => rfl)⟩

/-- C3: `move_to_c_obj` moves ownership out of the C++ object.  For every owned
object `x` (its static type is, or derives from, `Owned<X>`), from any memory `m`:
the call returns the `sizeof(X)` bytes that `x` holds in `m`, that is the value
before the call; the memory after the call is the memory `z_internal_null` leaves
when applied to the address of `x` in `m`, so the struct of `x` then holds what
`z_internal_null` wrote; and, `z_internal_null` putting a struct in the state
`z_internal_check` rejects, `check` on `x` afterwards is false: the returned
struct alone holds the resource. -/
theorem move_to_c_obj_spec (E : Env) (x : Ref Qual.mut) (X : TypeName) (m : Mem)
    (h : deduce_owned E x.type = some X)
    (hnull : ∀ (a : Addr) (T : TypeName) (s : Mem),
      E.z_internal_check { addr := a, type := T }
        (E.z_internal_null { addr := some a, pointee := T } s).2 = false) :
    (move_to_c_obj E x).run m
      = Except.ok ({ type := X, bytes := load m x.addr (E.sizeof X) },
          (E.z_internal_null { addr := some x.addr, pointee := X } m).2)
    ∧ (detail.check E x.asConst).run
        (E.z_internal_null { addr := some x.addr, pointee := X } m).2
      = Except.ok (false, (E.z_internal_null { addr := some x.addr, pointee := X } m).2) := by
  have hb : (bind_owned E x).run m
      = Except.ok ((X, { addr := x.addr, type := TypeName.Owned X }), m) :=
    run_bind_owned E x X m h
  have hp : (as_owned_c_ptr E { addr := x.addr, type := TypeName.Owned X }).run m
      = Except.ok ({ addr := some x.addr, pointee := X }, m) :=
    run_as_owned_c_ptr E { addr := x.addr, type := TypeName.Owned X } X m rfl
  have hd : (deref ({ addr := some x.addr, pointee := X } : Ptr Qual.mut)).run m
      = Except.ok ({ addr := x.addr, type := X }, m) := rfl
  have hc : (copy_init X (E.sizeof X) ({ addr := x.addr, type := X } : Ref Qual.mut)).run m
      = Except.ok ({ type := X, bytes := load m x.addr (E.sizeof X) }, m) := rfl
  constructor
  · unfold move_to_c_obj
    rw [Interop.run_bind_ok _ _ _ _ _ hb]
    simp only []
    rw [Interop.run_bind_ok _ _ _ _ _ hp, Interop.run_bind_ok _ _ _ _ _ hd,
      Interop.run_bind_ok _ _ _ _ _ hc, Interop.run_bind_ok _ _ _ _ _ hp]
    rfl
  · generalize hm1 : (E.z_internal_null { addr := some x.addr, pointee := X } m).2 = m1
    have hb1 : (bind_owned E x.asConst).run m1
        = Except.ok ((X, { addr := x.addr, type := TypeName.Owned X }), m1) :=
      run_bind_owned E x.asConst X m1 h
    have hp1 : (as_owned_c_ptr_const E { addr := x.addr, type := TypeName.Owned X }).run m1
        = Except.ok ({ addr := some x.addr, pointee := X }, m1) :=
      run_as_owned_c_ptr_const E { addr := x.addr, type := TypeName.Owned X } X m1 rfl
    have hd1 : (deref ({ addr := some x.addr, pointee := X } : Ptr Qual.const)).run m1
        = Except.ok ({ addr := x.addr, type := X }, m1) := rfl
    unfold detail.check
    rw [Interop.run_bind_ok _ _ _ _ _ hb1]
    simp only []
    rw [Interop.run_bind_ok _ _ _ _ _ hp1, Interop.run_bind_ok _ _ _ _ _ hd1]
    rw [Interop.run_ofC, ← hm1, hnull]

/-- Witness for C3: the owned wrapper object at address 16 of the sample environment,
whose `z_internal_null` zeroes the struct and whose `z_internal_check` looks for a
non-zero byte. -/
theorem move_to_c_obj_spec_witness :
    (deduce_owned sample.env sample.OwnedClass = some sample.z_owned_t
      ∧ ∀ (a : Addr) (T : TypeName) (s : Mem),
        sample.env.z_internal_check { addr := a, type := T }
          (sample.env.z_internal_null { addr := some a, pointee := T } s).2 = false)
    ∧ ((move_to_c_obj sample.env { addr := 16, type := sample.OwnedClass }).run sample.mem
        = Except.ok (
            { type := sample.z_owned_t, bytes := load sample.mem 16 (sample.sizeof sample.z_owned_t) },
            (sample.env.z_internal_null
              { addr := some 16, pointee := sample.z_owned_t } sample.mem).2)
      ∧ (detail.check sample.env
            (Ref.asConst { addr := 16, type := sample.OwnedClass })).run
          (sample.env.z_internal_null
            { addr := some 16, pointee := sample.z_owned_t } sample.mem).2
        = Except.ok (false,
            (sample.env.z_internal_null
              { addr := some 16, pointee := sample.z_owned_t } sample.mem).2)) :=
  ⟨⟨by decide, sample.null_then_check⟩,
    move_to_c_obj_spec sample.env { addr := 16, type := sample.OwnedClass } sample.z_owned_t
      sample.mem (by decide) sample.null_then_check⟩

/-- C5: `as_owned_cpp_ref<T>` on a pointer to a loaned struct of type `L` at address
`a`, from any memory `m`.  Either overload yields a result exactly when zenoh-c
declares an owned type `O` for `L`, `O` and `T` both have the size and the
alignment of `L`, and `Owned<O>` is a base of `T` (`std::is_base_of_v`); the
result is then the reference of type `T` to the storage at `a` itself, and the
memory is `m`: nothing is copied.  Otherwise the instantiation is rejected at
compile time, by substitution failure or by a `static_assert`. -/
theorem as_owned_cpp_ref_accepted_iff_same_layout (E : Env) (T L : TypeName) (a : Addr)
    (m : Mem) :
    (∀ r : Ref Qual.mut × Mem,
      (as_owned_cpp_ref E T { addr := some a, pointee := L }).run m = Except.ok r
        ↔ r = ({ addr := a, type := T }, m)
          ∧ ∃ O, E.z_loaned_to_owned_type_t L = some O
            ∧ (E.sizeof O = E.sizeof L ∧ E.alignof O = E.alignof L)
            ∧ (E.sizeof T = E.sizeof L ∧ E.alignof T = E.alignof L)
            ∧ is_base_of E (TypeName.Owned O) T = true)
    ∧ (∀ r : Ref Qual.const × Mem,
      (as_owned_cpp_ref_const E T { addr := some a, pointee := L }).run m = Except.ok r
        ↔ r = ({ addr := a, type := T }, m)
          ∧ ∃ O, E.z_loaned_to_owned_type_t L = some O
            ∧ (E.sizeof O = E.sizeof L ∧ E.alignof O = E.alignof L)
            ∧ (E.sizeof T = E.sizeof L ∧ E.alignof T = E.alignof L)
            ∧ is_base_of E (TypeName.Owned O) T = true)
    ∧ (∀ e : Fault,
      (as_owned_cpp_ref E T { addr := some a, pointee := L }).run m = Except.error e
        ∨ (as_owned_cpp_ref_const E T { addr := some a, pointee := L }).run m
            = Except.error e →
        e = Fault.substitution_failure ∨ ∃ w, e = Fault.static_assert_failed w) :=
  ⟨run_as_owned_cpp_ref_ok_iff E T L a m, run_as_owned_cpp_ref_const_ok_iff E T L a m,
    fun e h => h.elim (run_as_owned_cpp_ref_error E T L a m e)
      (run_as_owned_cpp_ref_const_error E T L a m e)⟩

/-- C6: `into_copyable_cpp_obj<T>` copies a copyable C struct into its wrapper.  For
every C struct `c` and class `T` with `T::InnerType` the type of `c` and
`Copyable` of that type a base of `T`, from any memory `m`: the call returns an
object of type `T` and leaves the memory `m`, hence `c`, unchanged; the C
representation of the result, read through `as_copyable_c_ptr` once the returned
temporary is materialised at `dst`, storage that does not overlap `c`, is a struct
of the type of `c` with the bytes `c` has in `m`; and `c` still has those bytes in
the memory that holds the temporary. -/
theorem into_copyable_cpp_obj_round_trip (E : Env) (T : TypeName) (c : Ref Qual.const)
    (dst : Addr) (m : Mem) (hInner : E.InnerType T = some c.type)
    (hbase : deduce_copyable E T = some c.type)
    (hfresh : dst + E.sizeof c.type ≤ c.addr ∨ c.addr + E.sizeof c.type ≤ dst) :
    (into_copyable_cpp_obj E T c).run m
      = Except.ok ({ type := T, bytes := load m c.addr (E.sizeof c.type) }, m)
    ∧ (c_representation_of_copy E T c dst).run m
      = Except.ok ({ type := c.type, bytes := load m c.addr (E.sizeof c.type) },
          store m dst (load m c.addr (E.sizeof c.type)))
    ∧ load (store m dst (load m c.addr (E.sizeof c.type))) c.addr (E.sizeof c.type)
      = load m c.addr (E.sizeof c.type) := by
  have hkeep : load (store m dst (load m c.addr (E.sizeof c.type))) c.addr (E.sizeof c.type)
      = load m c.addr (E.sizeof c.type) := by
    apply load_store_disjoint
    rw [load_length]
    exact hfresh
  have hinto : (into_copyable_cpp_obj E T c).run m
      = Except.ok ({ type := T, bytes := load m c.addr (E.sizeof c.type) }, m) := by
    unfold into_copyable_cpp_obj detail.Converter.copyable_to_cpp
    rw [hInner]
    simp only [if_true]
    rfl
  refine ⟨hinto, ?_, hkeep⟩
  clear hkeep
  generalize hbs : load m c.addr (E.sizeof c.type) = bs at hinto ⊢
  have hlen : bs.length = E.sizeof c.type := by rw [← hbs, load_length]
  have hmat : (materialize dst { type := T, bytes := bs }).run m
      = Except.ok ({ addr := dst, type := T }, store m dst bs) := rfl
  have hp : (as_copyable_c_ptr_const E { addr := dst, type := T }).run (store m dst bs)
      = Except.ok ({ addr := some dst, pointee := c.type }, store m dst bs) :=
    run_as_copyable_c_ptr_const E { addr := dst, type := T } c.type (store m dst bs) hbase
  have hd : (deref ({ addr := some dst, pointee := c.type } : Ptr Qual.const)).run
      (store m dst bs) = Except.ok ({ addr := dst, type := c.type }, store m dst bs) := rfl
  unfold c_representation_of_copy
  rw [Interop.run_bind_ok _ _ _ _ _ hinto, Interop.run_bind_ok _ _ _ _ _ hmat,
    Interop.run_bind_ok _ _ _ _ _ hp]
  simp only []
  rw [Interop.run_bind_ok _ _ _ _ _ hd]
  show Except.ok (({ type := c.type, bytes := load (store m dst bs) dst (E.sizeof c.type) } :
    Obj), store m dst bs) = _
  rw [← hlen, load_store_same]

/-- Witness for C6: the copyable struct at address 32 of the sample environment,
copied into the sample copyable class, the temporary being placed at address 64. -/
theorem into_copyable_cpp_obj_round_trip_witness :
    (sample.env.InnerType sample.CopyableClass = some sample.z_copyable_t
      ∧ deduce_copyable sample.env sample.CopyableClass = some sample.z_copyable_t
      ∧ (64 + sample.sizeof sample.z_copyable_t ≤ 32
        ∨ 32 + sample.sizeof sample.z_copyable_t ≤ 64))
    ∧ ((into_copyable_cpp_obj sample.env sample.CopyableClass
            { addr := 32, type := sample.z_copyable_t }).run sample.mem
        = Except.ok (
            { type := sample.CopyableClass, bytes := load sample.mem 32 (sample.sizeof sample.z_copyable_t) },
            sample.mem)
      ∧ (c_representation_of_copy sample.env sample.CopyableClass
            { addr := 32, type := sample.z_copyable_t } 64).run sample.mem
        = Except.ok (
            { type := sample.z_copyable_t, bytes := load sample.mem 32 (sample.sizeof sample.z_copyable_t) },
            store sample.mem 64 (load sample.mem 32 (sample.sizeof sample.z_copyable_t)))
      ∧ load (store sample.mem 64 (load sample.mem 32 (sample.sizeof sample.z_copyable_t)))
          32 (sample.sizeof sample.z_copyable_t)
        = load sample.mem 32 (sample.sizeof sample.z_copyable_t)) :=
  ⟨⟨by decide, by decide, by decide⟩,
    into_copyable_cpp_obj_round_trip sample.env sample.CopyableClass
      { addr := 32, type := sample.z_copyable_t } 64 sample.mem (by decide) (by decide)
      (by decide)⟩

end interop

end zenoh
